import Mathlib

/-!
Shallow embedding of the mini-game-tournament repository's three stub
components (ADBController, VisionProcessor, Planner) and its verification
script (test_python_imports.py). Python instance methods become functions
from the object's state to a pair of return value and updated state.
-/

/-! ## ADBController (src/actions/adb.py) -/

/-- State of an ADBController: a single connection flag. -/
structure ADBController where
  connected : Bool
deriving Repr, DecidableEq

/-- ADBController.__init__: connected starts false. -/
def ADBController.init : ADBController := { connected := false }

/-- ADBController.connect: sets connected to True, returns True. -/
def ADBController.connect (st : ADBController) : Bool × ADBController :=
  (true, { st with connected := true })

/-- ADBController.disconnect: sets connected to False, returns True. -/
def ADBController.disconnect (st : ADBController) : Bool × ADBController :=
  (true, { st with connected := false })

/-! ## VisionProcessor (src/vision/processor.py) -/

/-- State of a VisionProcessor: a single initialization flag. -/
structure VisionProcessor where
  initialized : Bool
deriving Repr, DecidableEq

/-- VisionProcessor.__init__: initialized starts false. -/
def VisionProcessor.init : VisionProcessor := { initialized := false }

/-- VisionProcessor.process_image: sets initialized to True, returns
the f-string "Processed: {image_path}". -/
def VisionProcessor.process_image (st : VisionProcessor) (image_path : String) :
    String × VisionProcessor :=
  ("Processed: " ++ image_path, { st with initialized := true })

/-- VisionProcessor.detect_objects: returns a fresh empty list regardless of
the input; the input may be any value, so it is a type parameter. The
element type of the returned Python list is unconstrained; String stands
in for it. -/
def VisionProcessor.detect_objects {α : Type} (st : VisionProcessor) (image : α) :
    List String × VisionProcessor :=
  ([], st)

/-! ## Planner (src/planner/strategy.py) -/

/-- The plan record built by create_plan: the Python dict literal
{"objectives": objectives, "steps": []}. The steps list is never
populated; String stands in for its unconstrained element type. -/
structure Plan where
  objectives : List String
  steps : List String
deriving Repr, DecidableEq

/-- The underlying Python dict of a plan, as an association list: the dict
literal in create_plan always has exactly the two keys "objectives" and
"steps". -/
def Plan.toDict (p : Plan) : List (String × List String) :=
  [("objectives", p.objectives), ("steps", p.steps)]

/-- Python truthiness of a plan dict: a dict is truthy iff it is non-empty
(has at least one key). -/
def Plan.truthy (p : Plan) : Bool := p.toDict.length != 0

/-- Python truthiness of the strategy field, which is either None or a plan
dict: None is falsy, a dict is truthy iff non-empty. -/
def strategyTruthy : Option Plan → Bool
  | none => false
  | some p => p.truthy

/-- State of a Planner: the strategy field, None until create_plan runs. -/
structure Planner where
  strategy : Option Plan
deriving Repr, DecidableEq

/-- Planner.__init__: strategy starts as None. -/
def Planner.init : Planner := { strategy := none }

/-- Planner.create_plan: stores the dict {"objectives": objectives,
"steps": []} in self.strategy and returns it. -/
def Planner.create_plan (st : Planner) (objectives : List String) :
    Plan × Planner :=
  let plan : Plan := { objectives := objectives, steps := [] }
  (plan, { st with strategy := some plan })

/-- Planner.execute_plan: "if self.strategy:" tests Python truthiness of
the strategy field; returns "Plan executed" when truthy, else
"No plan to execute". The state is not mutated. -/
def Planner.execute_plan (st : Planner) : String × Planner :=
  if strategyTruthy st.strategy then ("Plan executed", st)
  else ("No plan to execute", st)

/-! ### Traces of Planner method calls, for claims about call order. -/

/-- One public method call on a Planner. -/
inductive PlannerOp where
  | create (objectives : List String)
  | execute
deriving Repr, DecidableEq

/-- Run a sequence of method calls on a Planner, keeping only the final
state (return values are discarded). -/
def Planner.run (st : Planner) : List PlannerOp → Planner
  | [] => st
  | PlannerOp.create objs :: rest => Planner.run (st.create_plan objs).2 rest
  | PlannerOp.execute :: rest => Planner.run (st.execute_plan).2 rest

/-- Whether a trace contains at least one create_plan call. -/
def hasCreate : List PlannerOp → Bool
  | [] => false
  | PlannerOp.create _ :: _ => true
  | PlannerOp.execute :: rest => hasCreate rest

/-! ## Verification script (src/test_python_imports.py) -/

/-- A Python exception reaching the try/except in test_imports: either an
ImportError or any other exception, each carrying its message string. -/
inductive PyError where
  | importError (msg : String)
  | otherError (msg : String)
deriving Repr, DecidableEq

/-- The body of the try block yields the lines printed so far and either
normal completion with the returned bool, or a raised exception. -/
def TestOutcome : Type := List String × Except PyError Bool

/-- An assert statement: raises AssertionError (caught as a generic
exception, printed via its message) when the condition is false. -/
def pyAssert (cond : Bool) (msg : String) : Except PyError Unit :=
  if cond then Except.ok () else Except.error (PyError.otherError msg)

/-- The try-block body of test_imports, run against the embedded modules.
The three imports succeed (the modules exist in the repository), then the
three components are instantiated and exercised. -/
def test_imports_body : TestOutcome :=
  let prints1 := ["✅ All imports successful!"]
  let adb := ADBController.init
  let vision := VisionProcessor.init
  let planner := Planner.init
  let prints2 := prints1 ++ ["✅ All modules instantiated successfully!"]
  match pyAssert ((adb.connect).1 == true) "AssertionError" with
  | Except.error e => (prints2, Except.error e)
  | Except.ok _ =>
    match pyAssert ((vision.process_image "test.jpg").1 == "Processed: test.jpg")
        "AssertionError" with
    | Except.error e => (prints2, Except.error e)
    | Except.ok _ =>
      match pyAssert (decide ((planner.create_plan ["objective1"]).2.strategy ≠ none))
          "AssertionError" with
      | Except.error e => (prints2, Except.error e)
      | Except.ok _ =>
        (prints2 ++ ["✅ All module functions working correctly!"], Except.ok true)

/-- The except clauses of test_imports: an ImportError prints the marker
"❌ Import error: {e}", any other exception prints "❌ Error: {e}"; both
return False. Normal completion passes the body's return value through. -/
def test_imports (body : TestOutcome) : List String × Bool :=
  match body with
  | (ps, Except.ok b) => (ps, b)
  | (ps, Except.error (PyError.importError m)) =>
    (ps ++ ["❌ Import error: " ++ m], false)
  | (ps, Except.error (PyError.otherError m)) =>
    (ps ++ ["❌ Error: " ++ m], false)

/-- The __main__ block: exit(0 if success else 1). Returns the printed
lines and the process exit status. -/
def script_main (body : TestOutcome) : List String × Nat :=
  let (ps, success) := test_imports body
  (ps, if success then 0 else 1)

/-! ## Helper lemmas -/

/-- Every plan dict built by create_plan has two keys, hence is truthy. -/
theorem Plan.truthy_always (p : Plan) : p.truthy = true := by
  simp [Plan.truthy, Plan.toDict]

/-- execute_plan returns the caller's state unchanged on both branches. -/
theorem Planner.execute_plan_snd (st : Planner) : (st.execute_plan).2 = st := by
  unfold Planner.execute_plan
  split <;> rfl

/-- execute_plan with a stored plan answers "Plan executed". -/
theorem execute_plan_of_some (st : Planner) (p : Plan)
    (h : st.strategy = some p) : (st.execute_plan).1 = "Plan executed" := by
  simp [Planner.execute_plan, h, strategyTruthy, Plan.truthy_always]

/-- Running any trace from a state with a stored plan ends in a state with
a stored plan. -/
theorem run_preserves_some (ops : List PlannerOp) :
    ∀ (st : Planner) (p : Plan), st.strategy = some p →
      ∃ q, (st.run ops).strategy = some q := by
  induction ops with
  | nil => intro st p h; exact ⟨p, h⟩
  | cons op rest ih =>
    intro st p h
    cases op with
    | create objs =>
      exact ih _ { objectives := objs, steps := [] } rfl
    | execute =>
      rw [Planner.run, Planner.execute_plan_snd]
      exact ih st p h

/-- A trace without create_plan calls leaves the strategy field unchanged. -/
theorem run_no_create (ops : List PlannerOp) :
    ∀ (st : Planner), hasCreate ops = false →
      (st.run ops).strategy = st.strategy := by
  induction ops with
  | nil => intro st _; rfl
  | cons op rest ih =>
    intro st h
    cases op with
    | create objs => simp [hasCreate] at h
    | execute =>
      rw [Planner.run, Planner.execute_plan_snd]
      exact ih st h

/-- A trace with a create_plan call ends in a state with a stored plan. -/
theorem run_with_create (ops : List PlannerOp) :
    ∀ (st : Planner), hasCreate ops = true →
      ∃ q, (st.run ops).strategy = some q := by
  induction ops with
  | nil => intro st h; simp [hasCreate] at h
  | cons op rest ih =>
    intro st h
    cases op with
    | create objs =>
      exact run_preserves_some rest _ { objectives := objs, steps := [] } rfl
    | execute =>
      rw [Planner.run, Planner.execute_plan_snd]
      exact ih st (by simpa [hasCreate] using h)

/-! ## Claims -/

/-- C1: starting from a fresh Planner, execute_plan returns
"No plan to execute" after any trace containing no create_plan call, and
"Plan executed" after any trace containing at least one create_plan call. -/
theorem C1_execute_plan_before_after (ops : List PlannerOp) :
    (hasCreate ops = false →
      ((Planner.init.run ops).execute_plan).1 = "No plan to execute") ∧
    (hasCreate ops = true →
      ((Planner.init.run ops).execute_plan).1 = "Plan executed") := by
  constructor
  · intro h
    have hs : (Planner.init.run ops).strategy = none := by
      rw [run_no_create ops Planner.init h]; rfl
    simp [Planner.execute_plan, hs, strategyTruthy]
  · intro h
    obtain ⟨q, hq⟩ := run_with_create ops Planner.init h
    exact execute_plan_of_some _ q hq

/-- C1 witness: a concrete trace with no create_plan call and a concrete
trace with one, evaluated at the concrete inputs. -/
theorem C1_execute_plan_before_after_witness :
    ((Planner.init.run [PlannerOp.execute]).execute_plan).1 =
      "No plan to execute" ∧
    ((Planner.init.run
        [PlannerOp.execute, PlannerOp.create ["objective1"],
         PlannerOp.execute]).execute_plan).1 = "Plan executed" :=
  ⟨(C1_execute_plan_before_after [PlannerOp.execute]).1 (by decide),
   (C1_execute_plan_before_after
      [PlannerOp.execute, PlannerOp.create ["objective1"],
       PlannerOp.execute]).2 (by decide)⟩

/-- C2: for every non-empty list of objectives, create_plan returns a
record with objectives equal to the input and empty steps, and that
record is exactly what is stored in the Planner's state. -/
theorem C2_create_plan (st : Planner) (objs : List String)
    (h : objs ≠ []) :
    ((st.create_plan objs).1).objectives = objs ∧
    ((st.create_plan objs).1).steps = [] ∧
    ((st.create_plan objs).2).strategy = some (st.create_plan objs).1 := by
  refine ⟨rfl, rfl, rfl⟩

/-- C2 witness: create_plan evaluated on the non-empty list
["objective1"] from a fresh Planner. -/
theorem C2_create_plan_witness :
    ((Planner.init.create_plan ["objective1"]).1).objectives =
      ["objective1"] ∧
    ((Planner.init.create_plan ["objective1"]).1).steps = [] ∧
    ((Planner.init.create_plan ["objective1"]).2).strategy =
      some (Planner.init.create_plan ["objective1"]).1 :=
  C2_create_plan Planner.init ["objective1"] (by decide)

/-- C3: for every string s and every VisionProcessor state, process_image
returns "Processed: " ++ s and sets the initialized flag to true. -/
theorem C3_process_image (st : VisionProcessor) (s : String) :
    (st.process_image s).1 = "Processed: " ++ s ∧
    ((st.process_image s).2).initialized = true :=
  ⟨rfl, rfl⟩

/-- C4: the end-to-end scenario on fresh instances: connect returns true,
process_image "test.jpg" returns "Processed: test.jpg", create_plan
["objective1"] stores a non-absent record, and the verification script
prints the three success markers and exits with status 0. -/
theorem C4_end_to_end :
    (ADBController.init.connect).1 = true ∧
    (VisionProcessor.init.process_image "test.jpg").1 =
      "Processed: test.jpg" ∧
    (Planner.init.create_plan ["objective1"]).2.strategy ≠ none ∧
    script_main test_imports_body =
      (["✅ All imports successful!",
        "✅ All modules instantiated successfully!",
        "✅ All module functions working correctly!"], 0) := by
  refine ⟨rfl, rfl, by simp [Planner.create_plan], rfl⟩

/-- C5: for every exception raised in the try block (after any prefix of
printed lines), test_imports catches it, appends exactly one error-marker
line — "❌ Import error: " prefixed for ImportError, the distinct
"❌ Error: " prefix for every other exception — and the script exits with
a non-zero status. -/
theorem C5_error_handling (ps : List String) (e : PyError) (m : String)
    (hm : e = PyError.importError m ∨ e = PyError.otherError m) :
    (script_main (ps, Except.error e)).2 ≠ 0 ∧
    (script_main (ps, Except.error e)).1 =
      ps ++ [(match e with
              | PyError.importError msg => "❌ Import error: " ++ msg
              | PyError.otherError msg => "❌ Error: " ++ msg)] ∧
    (match e with
     | PyError.importError msg => "❌ Import error: " ++ msg
     | PyError.otherError msg => "❌ Error: " ++ msg) ≠
      (match e with
       | PyError.importError msg => "❌ Error: " ++ msg
       | PyError.otherError msg => "❌ Import error: " ++ msg) := by
  rcases hm with h | h <;> subst h
  · refine ⟨by simp [script_main, test_imports], by simp [script_main, test_imports], ?_⟩
    intro hcontra
    have : "❌ Import error: ".data ++ m.data = "❌ Error: ".data ++ m.data := by
      have := congrArg String.data hcontra
      simpa [String.data_append] using this
    have hlen := congrArg List.length this
    simp at hlen
    omega
  · refine ⟨by simp [script_main, test_imports], by simp [script_main, test_imports], ?_⟩
    intro hcontra
    have : "❌ Error: ".data ++ m.data = "❌ Import error: ".data ++ m.data := by
      have := congrArg String.data hcontra
      simpa [String.data_append] using this
    have hlen := congrArg List.length this
    simp at hlen

/-- C5 witness: a concrete ImportError after the empty prefix of prints. -/
theorem C5_error_handling_witness :
    (script_main ([], Except.error (PyError.importError "boom"))).2 ≠ 0 ∧
    (script_main ([], Except.error (PyError.importError "boom"))).1 =
      [] ++ ["❌ Import error: " ++ "boom"] ∧
    ("❌ Import error: " ++ "boom") ≠ ("❌ Error: " ++ "boom") :=
  C5_error_handling [] (PyError.importError "boom") "boom" (Or.inl rfl)

/-- C6: connect on any ADBController state returns true and leaves the
connection flag true. -/
theorem C6_connect (st : ADBController) :
    (st.connect).1 = true ∧ ((st.connect).2).connected = true :=
  ⟨rfl, rfl⟩

/-- C7: disconnect on any ADBController state returns true and leaves the
connection flag false. -/
theorem C7_disconnect (st : ADBController) :
    (st.disconnect).1 = true ∧ ((st.disconnect).2).connected = false :=
  ⟨rfl, rfl⟩

/-- C8: detect_objects returns the empty list for every input and every
VisionProcessor state (and leaves the state unchanged). -/
theorem C8_detect_objects {α : Type} (st : VisionProcessor) (x : α) :
    (st.detect_objects x).1 = [] :=
  rfl

/-- C9: execute_plan never mutates the Planner state: the entire state,
including the stored plan or its absence, is unchanged by the call. -/
theorem C9_execute_plan_frame (st : Planner) :
    (st.execute_plan).2 = st :=
  Planner.execute_plan_snd st

/-- C10: create_plan with an empty objectives list still stores a plan
that counts as present — the dict has two keys, so it is truthy — and a
subsequent execute_plan returns "Plan executed". -/
theorem C10_empty_objectives_plan_present (st : Planner) :
    (((st.create_plan []).2).execute_plan).1 = "Plan executed" :=
  execute_plan_of_some _ { objectives := [], steps := [] } rfl
